import Mathlib

/-!
Verification development for the interactive 3D viewport of the cad3dify
front-end (`src/components/AdvancedViewer.tsx`).

The viewer's camera rig keeps spherical state in a mutable record
`controlsRef.current = {mouseX, mouseY, isMouseDown, rotationX, rotationY, zoom}`
and mutates a camera (position + orientation) from pointer and wheel events.
We embed that state shallowly:

* numbers are embedded as exact rationals `ℚ`; the JavaScript constant
  `Math.PI` is embedded as the exact rational value of the IEEE-754 double
  closest to π, which is the number the source actually computes with;
* `Math.cos` / `Math.sin` appear in the source only inside the spherical
  target recomputation.  The claims under study are independent of their
  values, so the evaluation functions take `cos` and `sin` as function
  parameters `ℚ → ℚ`; concrete instantiations agree with the real functions
  at the sample points used (e.g. cos 0 = 1, sin 0 = 0);
* the three.js camera orientation (a quaternion set by `lookAt`) is embedded
  as the unnormalized view direction `target - position` recorded at the last
  `lookAt` call; `position.set` / `position.lerp` move the camera without
  touching the orientation, exactly as in three.js.
-/

namespace Cad3dify

/-- JavaScript's `Math.PI` constant, embedded as the rational value of its
shortest round-tripping decimal rendering 3.141592653589793.  The claims
below depend only on coarse bounds on this constant (it is positive and
below 8), which hold for the double and for this rational alike. -/
def jsPI : ℚ := 3.141592653589793

/-- Elevation clamp from `handleMouseMove`:
`Math.max(-Math.PI/2.2, Math.min(Math.PI/2.2, rotationX))`. -/
def clampElevation (e : ℚ) : ℚ := max (-(jsPI / 2.2)) (min (jsPI / 2.2) e)

/-- The contents of `controlsRef.current` in the source. -/
structure Controls where
  mouseX : ℚ
  mouseY : ℚ
  isMouseDown : Bool
  rotationX : ℚ
  rotationY : ℚ
  zoom : ℚ
deriving DecidableEq

/-- A 3-vector over the embedded number type. -/
structure Vec3 where
  x : ℚ
  y : ℚ
  z : ℚ
deriving DecidableEq

def Vec3.sub (a b : Vec3) : Vec3 := ⟨a.x - b.x, a.y - b.y, a.z - b.z⟩

def Vec3.smul (t : ℚ) (v : Vec3) : Vec3 := ⟨t * v.x, t * v.y, t * v.z⟩

/-- three.js `Vector3.lerp`: `this += (v - this) * alpha`, componentwise. -/
def Vec3.lerp (a b : Vec3) (alpha : ℚ) : Vec3 :=
  ⟨a.x + (b.x - a.x) * alpha, a.y + (b.y - a.y) * alpha, a.z + (b.z - a.z) * alpha⟩

def origin : Vec3 := ⟨0, 0, 0⟩

/-- The camera: its position, and its orientation embedded as the
unnormalized view direction fixed by the last `lookAt` call. -/
structure Camera where
  position : Vec3
  dir : Vec3
deriving DecidableEq

/-- three.js `camera.lookAt t`: reorients the camera toward `t`,
leaving the position unchanged. -/
def Camera.lookAt (c : Camera) (t : Vec3) : Camera :=
  { c with dir := Vec3.sub t c.position }

/-- The camera is aimed at point `p`: `p` lies on the ray from the camera
position along its view direction. -/
def Camera.aimedAt (c : Camera) (p : Vec3) : Prop :=
  ∃ t : ℚ, 0 < t ∧ Vec3.sub p c.position = Vec3.smul t c.dir

/-- Full mutable state touched by the pointer/wheel handlers. -/
structure ViewerState where
  controls : Controls
  camera : Camera
deriving DecidableEq

/-- Spherical-to-Cartesian recomputation shared by `handleMouseMove` and
`handleWheel` (lines 125-127 and 146-148 of the source):
`(r cos(rotY) cos(rotX), r sin(rotX), r sin(rotY) cos(rotX))`. -/
def sphericalTarget (cos sin : ℚ → ℚ) (rotY rotX radius : ℚ) : Vec3 :=
  ⟨radius * cos rotY * cos rotX, radius * sin rotX, radius * sin rotY * cos rotX⟩

/-- `handleMouseDown`: records the pointer position and marks dragging active. -/
def handleMouseDown (x y : ℚ) (s : ViewerState) : ViewerState :=
  { s with controls := { s.controls with isMouseDown := true, mouseX := x, mouseY := y } }

/-- `handleMouseMove` (source lines 113-134): no-op unless dragging; otherwise
accumulates rotation from the pointer delta, clamps the elevation, lerps the
camera 10% toward the recomputed spherical position, re-aims at the origin,
and stores the pointer position. -/
def handleMouseMove (cos sin : ℚ → ℚ) (x y : ℚ) (s : ViewerState) : ViewerState :=
  if s.controls.isMouseDown = false then s
  else
    let deltaX := x - s.controls.mouseX
    let deltaY := y - s.controls.mouseY
    let rotY := s.controls.rotationY + deltaX * 0.008
    let rotX := clampElevation (s.controls.rotationX + deltaY * 0.008)
    let target := sphericalTarget cos sin rotY rotX s.controls.zoom
    let movedCam := { s.camera with position := Vec3.lerp s.camera.position target 0.1 }
    { controls := { s.controls with
        rotationY := rotY, rotationX := rotX, mouseX := x, mouseY := y },
      camera := movedCam.lookAt origin }

/-- `handleMouseUp`: marks dragging inactive. -/
def handleMouseUp (s : ViewerState) : ViewerState :=
  { s with controls := { s.controls with isMouseDown := false } }

/-- The radius update of `handleWheel` (line 142-143):
`zoom = Math.max(3, Math.min(50, zoom * (deltaY > 0 ? 1.1 : 0.9)))`. -/
def wheelZoom (deltaY r : ℚ) : ℚ :=
  max 3 (min 50 (r * (if deltaY > 0 then 1.1 else 0.9)))

/-- `handleWheel` (source lines 140-151): scales and clamps the radius, then
snaps the camera position to the recomputed spherical target.  Note the
source calls `camera.position.set`, not `camera.lookAt`: the orientation is
left unchanged. -/
def handleWheel (cos sin : ℚ → ℚ) (deltaY : ℚ) (s : ViewerState) : ViewerState :=
  let z := wheelZoom deltaY s.controls.zoom
  let target := sphericalTarget cos sin s.controls.rotationY s.controls.rotationX z
  { controls := { s.controls with zoom := z },
    camera := { s.camera with position := target } }

/-- A sequence of wheel events applied in order. -/
def wheelSeq (cos sin : ℚ → ℚ) (ds : List ℚ) (s : ViewerState) : ViewerState :=
  ds.foldl (fun t d => handleWheel cos sin d t) s

/-- A sequence of pointer-move events applied in order. -/
def dragSeq (cos sin : ℚ → ℚ) (ps : List (ℚ × ℚ)) (s : ViewerState) : ViewerState :=
  ps.foldl (fun t p => handleMouseMove cos sin p.1 p.2 t) s

/-- Concrete stand-in for `Math.cos` used at sample points where the real
cosine is 1 (namely at angle 0). -/
def cosOne : ℚ → ℚ := fun _ => 1

/-- Concrete stand-in for `Math.sin` used at sample points where the real
sine is 0 (namely at angle 0). -/
def sinZero : ℚ → ℚ := fun _ => 0

/-- The viewer state right after mount: `controlsRef` initialized to
`{mouseX:0, mouseY:0, isMouseDown:false, rotationX:0, rotationY:0, zoom:10}`,
camera at (10,10,10) looking at the origin (source lines 20-27 and 37-39). -/
def mountState : ViewerState :=
  { controls := ⟨0, 0, false, 0, 0, 10⟩,
    camera := ⟨⟨10, 10, 10⟩, ⟨-10, -10, -10⟩⟩ }

/-- Same state but with a drag in progress (after `handleMouseDown 0 0`). -/
def mountStateDragging : ViewerState := handleMouseDown 0 0 mountState

theorem wheelZoom_mem (d r : ℚ) : 3 ≤ wheelZoom d r ∧ wheelZoom d r ≤ 50 := by
  unfold wheelZoom
  constructor
  · exact le_max_left _ _
  · exact max_le (by norm_num) (min_le_left _ _)

theorem handleWheel_zoom_eq (cos sin : ℚ → ℚ) (d : ℚ) (s : ViewerState) :
    (handleWheel cos sin d s).controls.zoom = wheelZoom d s.controls.zoom := rfl

theorem wheelSeq_mem (cos sin : ℚ → ℚ) (ds : List ℚ) (s : ViewerState)
    (h3 : 3 ≤ s.controls.zoom) (h50 : s.controls.zoom ≤ 50) :
    3 ≤ (wheelSeq cos sin ds s).controls.zoom ∧
      (wheelSeq cos sin ds s).controls.zoom ≤ 50 := by
  induction ds generalizing s with
  | nil => exact ⟨h3, h50⟩
  | cons d ds ih =>
    have hmem := wheelZoom_mem d s.controls.zoom
    have hstep : (handleWheel cos sin d s).controls.zoom = wheelZoom d s.controls.zoom := rfl
    exact ih (handleWheel cos sin d s) (hstep ▸ hmem.1) (hstep ▸ hmem.2)

/-- C1: every zoom multiplies the radius by 1.1 (positive wheel delta) or 0.9
and clamps the result to [3, 50]; consequently, after any sequence of zoom
operations starting from an in-range radius, the radius stays in [3, 50]. -/
theorem zoom_radius_invariant (cos sin : ℚ → ℚ) (ds : List ℚ) (s : ViewerState)
    (h3 : 3 ≤ s.controls.zoom) (h50 : s.controls.zoom ≤ 50) :
    (∀ d : ℚ, ∀ t : ViewerState,
        (handleWheel cos sin d t).controls.zoom =
          max 3 (min 50 (t.controls.zoom * (if d > 0 then 1.1 else 0.9)))) ∧
    3 ≤ (wheelSeq cos sin ds s).controls.zoom ∧
      (wheelSeq cos sin ds s).controls.zoom ≤ 50 :=
  ⟨fun _ _ => rfl, wheelSeq_mem cos sin ds s h3 h50⟩

/-- Witness for C1 at the mount state (radius 10) and a concrete wheel
sequence. -/
theorem zoom_radius_invariant_witness :
    3 ≤ (wheelSeq cosOne sinZero [1, -1, 1] mountState).controls.zoom ∧
      (wheelSeq cosOne sinZero [1, -1, 1] mountState).controls.zoom ≤ 50 :=
  (zoom_radius_invariant cosOne sinZero [1, -1, 1] mountState
    (by decide) (by decide)).2

/-- Repeated wheel-away zoom, radius dynamics only (`deltaY = 1 > 0`). -/
def zoomAway : ℚ → ℚ := wheelZoom 1

/-- C3 counterexample: five wheel-away zooms from radius 10 give radius
10 · 1.1⁵ = 16.1051, which is not 50 — the ceiling is not reached after five
steps, contradicting the claimed scenario. -/
theorem zoom_five_from_ten_not_fifty :
    zoomAway^[5] 10 = 161051 / 10000 ∧ zoomAway^[5] 10 ≠ 50 := by
  constructor
  · simp [Function.iterate_succ_apply, zoomAway, wheelZoom]
    norm_num
  · simp [Function.iterate_succ_apply, zoomAway, wheelZoom]
    norm_num

theorem zoomAway_fifty_fixed (m : ℕ) : zoomAway^[m] (50 : ℚ) = 50 := by
  induction m with
  | zero => rfl
  | succ n ih =>
    rw [Function.iterate_succ_apply', ih]
    unfold zoomAway wheelZoom
    norm_num

theorem zoomAway_sixteen : zoomAway^[16] 10 = 45949729863572161 / 1000000000000000 := by
  simp [Function.iterate_succ_apply, zoomAway, wheelZoom]
  norm_num

/-- C3 amended: wheel-away zoom from radius 10 follows `radius *= 1.1`
capped at the ceiling; the radius first reaches the ceiling 50 exactly
after seventeen steps — after sixteen it is still 45.949729863572161, and
no earlier count reaches 50 — and no number of steps ever takes it
beyond 50. -/
theorem zoom_away_reaches_ceiling_at_seventeen :
    zoomAway^[17] 10 = 50 ∧
    zoomAway^[16] 10 = 45949729863572161 / 1000000000000000 ∧
    (∀ k : ℕ, k < 17 → zoomAway^[k] 10 ≠ 50) ∧
    ∀ n : ℕ, zoomAway^[n] 10 ≤ 50 := by
  have h16 : zoomAway^[16] 10 = 45949729863572161 / 1000000000000000 :=
    zoomAway_sixteen
  have h16ne : zoomAway^[16] 10 ≠ 50 := by
    rw [h16]
    norm_num
  refine ⟨?_, h16, ?_, ?_⟩
  · simp [Function.iterate_succ_apply, zoomAway, wheelZoom]
    norm_num
  · intro k hk heq
    apply h16ne
    have hsplit : 16 = (16 - k) + k := by omega
    calc zoomAway^[16] 10 = zoomAway^[(16 - k) + k] 10 := by rw [← hsplit]
      _ = zoomAway^[16 - k] (zoomAway^[k] 10) := Function.iterate_add_apply _ _ _ _
      _ = zoomAway^[16 - k] 50 := by rw [heq]
      _ = 50 := zoomAway_fifty_fixed _
  · intro n
    cases n with
    | zero => norm_num
    | succ m =>
      rw [Function.iterate_succ_apply']
      exact (wheelZoom_mem 1 (zoomAway^[m] 10)).2

/-- Witness for C3 amended at the below-ceiling count five. -/
theorem zoom_away_reaches_ceiling_at_seventeen_witness :
    zoomAway^[5] 10 ≠ 50 :=
  zoom_away_reaches_ceiling_at_seventeen.2.2.1 5 (by decide)

theorem clampElevation_mem (e : ℚ) :
    -(jsPI / 2.2) ≤ clampElevation e ∧ clampElevation e ≤ jsPI / 2.2 := by
  have hBpos : 0 < jsPI / 2.2 := by norm_num [jsPI]
  refine ⟨le_max_left _ _, max_le (by linarith) (min_le_left _ _)⟩

theorem handleMouseMove_rotationX (cos sin : ℚ → ℚ) (x y : ℚ) (s : ViewerState) :
    (handleMouseMove cos sin x y s).controls.rotationX = s.controls.rotationX ∨
      (handleMouseMove cos sin x y s).controls.rotationX =
        clampElevation (s.controls.rotationX + (y - s.controls.mouseY) * 0.008) := by
  by_cases h : s.controls.isMouseDown = false
  · left
    simp [handleMouseMove, h]
  · right
    simp [handleMouseMove, h]

/-- C2 counterexample: starting from the mount state with a drag active
(elevation 0, strictly inside the claimed open interval), a single drag
update with pointer delta (0, 1000) drives the elevation to exactly
`jsPI / 2.2` — the clamp is inclusive, so the elevation reaches the
endpoint, contradicting the claimed open-interval invariant. -/
theorem drag_elevation_reaches_bound :
    (-(jsPI / 2.2) < mountStateDragging.controls.rotationX ∧
      mountStateDragging.controls.rotationX < jsPI / 2.2) ∧
    (handleMouseMove cosOne sinZero 0 1000 mountStateDragging).controls.rotationX =
      jsPI / 2.2 ∧
    ¬ (handleMouseMove cosOne sinZero 0 1000 mountStateDragging).controls.rotationX <
      jsPI / 2.2 := by
  have hBpos : 0 < jsPI / 2.2 := by norm_num [jsPI]
  have hBle : jsPI / 2.2 ≤ 8 := by norm_num [jsPI]
  have h0 : mountStateDragging.controls.rotationX = 0 := rfl
  have hproj : (handleMouseMove cosOne sinZero 0 1000 mountStateDragging).controls.rotationX =
      clampElevation (0 + (1000 - 0) * 0.008) := rfl
  have h8 : ((0 : ℚ) + (1000 - 0) * 0.008) = 8 := by norm_num
  have hval : (handleMouseMove cosOne sinZero 0 1000 mountStateDragging).controls.rotationX =
      jsPI / 2.2 := by
    rw [hproj, h8]
    unfold clampElevation
    rw [min_eq_left hBle, max_eq_right (by linarith)]
  refine ⟨⟨by rw [h0]; linarith, by rw [h0]; exact hBpos⟩, hval, ?_⟩
  rw [hval]
  exact lt_irrefl _

/-- C2 amended: for every sequence of drag updates starting from an
elevation strictly inside the interval, the elevation stays within the
**closed** interval [−π/2.2, π/2.2]; the clamp is inclusive, so the
endpoints can be attained but never passed. -/
theorem drag_elevation_closed_invariant (cos sin : ℚ → ℚ) (ps : List (ℚ × ℚ))
    (s : ViewerState)
    (h1 : -(jsPI / 2.2) < s.controls.rotationX)
    (h2 : s.controls.rotationX < jsPI / 2.2) :
    -(jsPI / 2.2) ≤ (dragSeq cos sin ps s).controls.rotationX ∧
      (dragSeq cos sin ps s).controls.rotationX ≤ jsPI / 2.2 := by
  have key : ∀ (qs : List (ℚ × ℚ)) (t : ViewerState),
      -(jsPI / 2.2) ≤ t.controls.rotationX → t.controls.rotationX ≤ jsPI / 2.2 →
      -(jsPI / 2.2) ≤ (dragSeq cos sin qs t).controls.rotationX ∧
        (dragSeq cos sin qs t).controls.rotationX ≤ jsPI / 2.2 := by
    intro qs
    induction qs with
    | nil => exact fun t ht1 ht2 => ⟨ht1, ht2⟩
    | cons p ps ih =>
      intro t ht1 ht2
      have hstep := handleMouseMove_rotationX cos sin p.1 p.2 t
      rcases hstep with hstep | hstep
      · exact ih (handleMouseMove cos sin p.1 p.2 t) (hstep ▸ ht1) (hstep ▸ ht2)
      · have hmem := clampElevation_mem (t.controls.rotationX + (p.2 - t.controls.mouseY) * 0.008)
        exact ih (handleMouseMove cos sin p.1 p.2 t) (hstep ▸ hmem.1) (hstep ▸ hmem.2)
  exact key ps s (le_of_lt h1) (le_of_lt h2)

/-- Witness for C2 amended, at the mount state with a concrete drag. -/
theorem drag_elevation_closed_invariant_witness :
    -(jsPI / 2.2) ≤ (dragSeq cosOne sinZero [(5, 7)] mountStateDragging).controls.rotationX ∧
      (dragSeq cosOne sinZero [(5, 7)] mountStateDragging).controls.rotationX ≤ jsPI / 2.2 :=
  drag_elevation_closed_invariant cosOne sinZero [(5, 7)] mountStateDragging
    (by norm_num [mountStateDragging, handleMouseDown, mountState, jsPI])
    (by norm_num [mountStateDragging, handleMouseDown, mountState, jsPI])

theorem Vec3.smul_one (v : Vec3) : Vec3.smul 1 v = v := by
  cases v
  simp [Vec3.smul]

theorem lookAt_aimedAt (c : Camera) (t : Vec3) : (c.lookAt t).aimedAt t :=
  ⟨1, one_pos, (Vec3.smul_one _).symm⟩

/-- C4 counterexample: at the mount state (camera at (10,10,10) aimed at the
origin), one wheel-away event snaps the position to (11,0,0) but leaves the
view direction at (-10,-10,-10) — `handleWheel` never calls `lookAt` — so
the camera is no longer aimed at the origin, contradicting the claimed
re-aiming.  (At azimuth = elevation = 0 the stand-ins `cosOne`/`sinZero`
agree with the real cosine and sine.) -/
theorem wheel_does_not_reaim :
    mountState.camera.aimedAt origin ∧
    (handleWheel cosOne sinZero 1 mountState).camera.position = ⟨11, 0, 0⟩ ∧
    ¬ (handleWheel cosOne sinZero 1 mountState).camera.aimedAt origin := by
  have hpos : (handleWheel cosOne sinZero 1 mountState).camera.position = ⟨11, 0, 0⟩ := by
    show sphericalTarget cosOne sinZero 0 0 (wheelZoom 1 10) = _
    have hz : wheelZoom 1 10 = 11 := by
      unfold wheelZoom
      norm_num
    rw [hz]
    simp [sphericalTarget, cosOne, sinZero]
  have hdir : (handleWheel cosOne sinZero 1 mountState).camera.dir = ⟨-10, -10, -10⟩ := rfl
  refine ⟨⟨1, one_pos, by simp [mountState, origin, Vec3.sub, Vec3.smul]⟩, hpos, ?_⟩
  rintro ⟨t, ht, heq⟩
  rw [hpos, hdir] at heq
  have hy := congrArg Vec3.y heq
  have hx := congrArg Vec3.x heq
  simp [origin, Vec3.sub, Vec3.smul] at hy hx
  rw [hy] at ht
  exact lt_irrefl 0 ht

/-- C4 amended: every zoom snaps the camera position instantly (no
interpolation) to the position recomputed from the spherical coordinates
(azimuth, elevation, new clamped radius), but it does not re-aim the
camera: the view orientation is left unchanged because `handleWheel` sets
the position without calling `lookAt`. -/
theorem wheel_snaps_position_keeps_orientation (cos sin : ℚ → ℚ) (d : ℚ)
    (s : ViewerState) :
    (handleWheel cos sin d s).camera.position =
      sphericalTarget cos sin s.controls.rotationY s.controls.rotationX
        (wheelZoom d s.controls.zoom) ∧
    (handleWheel cos sin d s).camera.dir = s.camera.dir :=
  ⟨rfl, rfl⟩

/-- C5: a drag update is a no-op unless dragging is active; when active it
adds deltaX·0.008 to the azimuth and deltaY·0.008 to the elevation, clamps
the elevation, lerps the camera position 10% toward the recomputed
spherical target (not an instant jump), re-aims at the origin, records the
pointer position, and leaves the radius unchanged. -/
theorem drag_update_spec (cos sin : ℚ → ℚ) (x y : ℚ) (s : ViewerState) :
    (s.controls.isMouseDown = false → handleMouseMove cos sin x y s = s) ∧
    (s.controls.isMouseDown = true →
      (handleMouseMove cos sin x y s).controls.rotationY =
        s.controls.rotationY + (x - s.controls.mouseX) * 0.008 ∧
      (handleMouseMove cos sin x y s).controls.rotationX =
        clampElevation (s.controls.rotationX + (y - s.controls.mouseY) * 0.008) ∧
      (handleMouseMove cos sin x y s).camera.position =
        Vec3.lerp s.camera.position
          (sphericalTarget cos sin
            ((handleMouseMove cos sin x y s).controls.rotationY)
            ((handleMouseMove cos sin x y s).controls.rotationX)
            s.controls.zoom) 0.1 ∧
      (handleMouseMove cos sin x y s).camera.aimedAt origin ∧
      (handleMouseMove cos sin x y s).controls.mouseX = x ∧
      (handleMouseMove cos sin x y s).controls.mouseY = y ∧
      (handleMouseMove cos sin x y s).controls.zoom = s.controls.zoom) := by
  constructor
  · intro h
    simp [handleMouseMove, h]
  · intro h
    have hfalse : ¬ (s.controls.isMouseDown = false) := by simp [h]
    have hcam : (handleMouseMove cos sin x y s).camera =
        Camera.lookAt
          { s.camera with
            position := Vec3.lerp s.camera.position
              (sphericalTarget cos sin
                (s.controls.rotationY + (x - s.controls.mouseX) * 0.008)
                (clampElevation (s.controls.rotationX + (y - s.controls.mouseY) * 0.008))
                s.controls.zoom) 0.1 } origin := by
      simp [handleMouseMove, hfalse]
    refine ⟨?_, ?_, ?_, ?_, ?_, ?_, ?_⟩
    · simp [handleMouseMove, hfalse]
    · simp [handleMouseMove, hfalse]
    · simp [handleMouseMove, hfalse, Camera.lookAt]
    · rw [hcam]
      exact lookAt_aimedAt _ _
    · simp [handleMouseMove, hfalse]
    · simp [handleMouseMove, hfalse]
    · simp [handleMouseMove, hfalse]

/-- Witness for C5: the idle branch at the mount state (dragging inactive)
and the active branch right after a mouse-down. -/
theorem drag_update_spec_witness :
    handleMouseMove cosOne sinZero 3 4 mountState = mountState ∧
    (handleMouseMove cosOne sinZero 3 4 mountStateDragging).controls.mouseX = 3 := by
  refine ⟨(drag_update_spec cosOne sinZero 3 4 mountState).1 rfl, ?_⟩
  exact ((drag_update_spec cosOne sinZero 3 4 mountStateDragging).2 rfl).2.2.2.2.1

/-!
Scene-graph model.  In the source, the scene's top level holds four lights,
the grid helper, the axes helper (both `LineSegments`, not `Mesh`), and the
displayed-geometry `Group` named "cadModel" whose children are meshes; the
graph never nests deeper, so the embedding fixes that one-level shape.
Spatial attributes (positions, geometry parameters) are omitted: no claim
under study mentions them.  Materials carry every parameter the source
sets. -/

/-- three.js materials occurring in the viewer. -/
inductive Material where
  | meshPhysical (color : ℕ) (metalness roughness : ℚ)
      (clearcoat clearcoatRoughness : Option ℚ)
  | meshBasic (color : ℕ) (wireframe : Bool)
  | pointsMat (color : ℕ) (size : ℚ)
  | lineMat (opacity : ℚ) (transparent : Bool)
deriving DecidableEq

/-- The color parameter of a material, when it has one. -/
def materialColor : Material → Option ℕ
  | .meshPhysical c _ _ _ _ => some c
  | .meshBasic c _ => some c
  | .pointsMat c _ => some c
  | .lineMat _ _ => none

/-- A mesh: a named scene object carrying a material
(`THREE.Mesh` instances). -/
structure MeshObj where
  name : String
  material : Material
deriving DecidableEq

/-- A scene-graph node as it occurs in the viewer's scene. -/
inductive Obj where
  | light (name : String)
  | line (name : String) (material : Material)
  | mesh (m : MeshObj)
  | group (name : String) (children : List MeshObj)
deriving DecidableEq

def Obj.name : Obj → String
  | .light n => n
  | .line n _ => n
  | .mesh m => m.name
  | .group n _ => n

/-- Material of the main cylinder (source lines 212-218). -/
def mainMaterial : Material :=
  .meshPhysical 0x6366f1 0.2 0.1 (some 0.8) (some 0.1)

/-- Material of the two flanges (source lines 227-231). -/
def flangeMaterial : Material := .meshPhysical 0x8b5cf6 0.3 0.2 none none

/-- Material of the eight bolt holes (source lines 245-249). -/
def holeMaterial : Material := .meshPhysical 0x1e293b 0.8 0.1 none none

/-- The placeholder displayed-geometry group built by `createDefaultModel`:
a main cylinder, two flanges, and eight bolt holes (which differ only in
their omitted positions), all with empty names as three.js defaults. -/
def cadModelGroup : Obj :=
  .group "cadModel"
    ([⟨"", mainMaterial⟩, ⟨"", flangeMaterial⟩, ⟨"", flangeMaterial⟩] ++
      List.replicate 8 ⟨"", holeMaterial⟩)

/-- `createDefaultModel` (source lines 198-272): removes every scene child
named "cadModel", then adds one freshly built placeholder group with that
name.  (The guard for an absent scene does not arise: the component always
creates the scene before calling this.) -/
def createDefaultModel (scene : List Obj) : List Obj :=
  scene.filter (fun o => !(o.name == "cadModel")) ++ [cadModelGroup]

/-- `loadModel` (source lines 274-278): the STEP loader is a stub that
ignores the URL and shows the placeholder. -/
def loadModel (url : String) (scene : List Obj) : List Obj := createDefaultModel scene

/-- The mount-time dispatch (source lines 168-172): with a model reference
call `loadModel`, otherwise `createDefaultModel`. -/
def replaceDisplayedGeometry (modelRef : Option String) (scene : List Obj) : List Obj :=
  match modelRef with
  | some url => loadModel url scene
  | none => createDefaultModel scene

/-- Number of top-level scene children named "cadModel". -/
def countCad (scene : List Obj) : ℕ :=
  (scene.filter (fun o => o.name == "cadModel")).length

theorem countCad_createDefaultModel (scene : List Obj) :
    countCad (createDefaultModel scene) = 1 := by
  unfold countCad createDefaultModel
  rw [List.filter_append]
  have hleft : (scene.filter (fun o => !(o.name == "cadModel"))).filter
      (fun o => o.name == "cadModel") = [] := by
    rw [List.filter_filter]
    apply List.filter_eq_nil_iff.mpr
    intro o _
    cases h : o.name == "cadModel" <;> simp [h]
  rw [hleft]
  simp [cadModelGroup, Obj.name]

theorem replaceDisplayedGeometry_eq (r : Option String) (scene : List Obj) :
    replaceDisplayedGeometry r scene = createDefaultModel scene := by
  cases r <;> rfl

/-- C6: after any non-empty sequence of `replaceDisplayedGeometry` calls
(with or without a model reference), exactly one scene child named
"cadModel" exists; in particular two calls with the same reference leave
exactly one group. -/
theorem replace_geometry_unique_group (refs : List (Option String)) (scene : List Obj)
    (hne : refs ≠ []) :
    countCad (refs.foldl (fun s r => replaceDisplayedGeometry r s) scene) = 1 ∧
    ∀ (r : Option String) (s : List Obj),
      countCad (replaceDisplayedGeometry r (replaceDisplayedGeometry r s)) = 1 := by
  constructor
  · induction refs generalizing scene with
    | nil => exact absurd rfl hne
    | cons r rest ih =>
      cases rest with
      | nil =>
        simp only [List.foldl_cons, List.foldl_nil]
        rw [replaceDisplayedGeometry_eq]
        exact countCad_createDefaultModel scene
      | cons r2 rest2 =>
        simp only [List.foldl_cons]
        have := ih (replaceDisplayedGeometry r scene) (by simp)
        simpa using this
  · intro r s
    rw [replaceDisplayedGeometry_eq, replaceDisplayedGeometry_eq]
    exact countCad_createDefaultModel _

/-- Witness for C6 on a concrete call sequence over the empty scene. -/
theorem replace_geometry_unique_group_witness :
    countCad ([some "a", none].foldl (fun s r => replaceDisplayedGeometry r s) []) = 1 :=
  (replace_geometry_unique_group [some "a", none] [] (by simp)).1

/-- The three view modes. -/
inductive ViewMode where
  | solid
  | wireframe
  | points
deriving DecidableEq

/-- Mode successor from `toggleViewMode` (source line 283):
solid → wireframe → points → solid. -/
def nextMode : ViewMode → ViewMode
  | .solid => .wireframe
  | .wireframe => .points
  | .points => .solid

/-- The freshly created replacement material per mode (source lines
288-304): a single fixed color 0x6366f1 in every branch; the solid branch
sets no clearcoat. -/
def modeMaterial : ViewMode → Material
  | .wireframe => .meshBasic 0x6366f1 true
  | .points => .pointsMat 0x6366f1 0.1
  | .solid => .meshPhysical 0x6366f1 0.2 0.1 none none

/-- The traversal action on one mesh (source line 287): meshes not named
"grid" or "axes" get the fresh mode material. -/
def applyMesh (m : ViewMode) (me : MeshObj) : MeshObj :=
  if me.name ≠ "grid" ∧ me.name ≠ "axes" then { me with material := modeMaterial m }
  else me

/-- The traversal action on one scene node: only `Mesh` instances pass the
`instanceof THREE.Mesh` test; lights, the line-segment helpers, and group
containers are untouched, while a group's mesh children are visited. -/
def applyObj (m : ViewMode) : Obj → Obj
  | .light n => .light n
  | .line n mat => .line n mat
  | .mesh me => .mesh (applyMesh m me)
  | .group n cs => .group n (cs.map (applyMesh m))

/-- View-mode session state: the `viewMode` React state plus the scene. -/
structure SceneState where
  mode : ViewMode
  scene : List Obj
deriving DecidableEq

/-- `toggleViewMode` (source lines 280-307): advance the mode, then
re-materialize every non-helper mesh in the scene for the new mode. -/
def toggleViewMode (st : SceneState) : SceneState :=
  let m := nextMode st.mode
  { mode := m, scene := st.scene.map (applyObj m) }

/-- Is this the name of a helper node ("grid" or "axes")? -/
def helperName (n : String) : Bool := n == "grid" || n == "axes"

/-- Materials of helper-named nodes, in traversal order. -/
def objHelperMaterials : Obj → List Material
  | .light _ => []
  | .line n mat => if helperName n then [mat] else []
  | .mesh me => if helperName me.name then [me.material] else []
  | .group _ cs =>
      cs.foldr (fun me acc => if helperName me.name then me.material :: acc else acc) []

/-- Materials of all helper-named nodes of a scene. -/
def helperMaterials (scene : List Obj) : List Material :=
  scene.foldr (fun o acc => objHelperMaterials o ++ acc) []

theorem applyMesh_helper (m : ViewMode) (me : MeshObj) (h : helperName me.name = true) :
    applyMesh m me = me := by
  unfold applyMesh
  unfold helperName at h
  rcases Bool.or_eq_true_iff.mp h with h1 | h1
  · simp [eq_of_beq h1]
  · simp [eq_of_beq h1]

theorem objHelperMaterials_applyObj (m : ViewMode) (o : Obj) :
    objHelperMaterials (applyObj m o) = objHelperMaterials o := by
  cases o with
  | light n => rfl
  | line n mat => rfl
  | mesh me =>
    show objHelperMaterials (.mesh (applyMesh m me)) = _
    cases h : helperName me.name with
    | false =>
      have hname : (applyMesh m me).name = me.name := by
        unfold applyMesh
        split <;> rfl
      simp [objHelperMaterials, hname, h]
    | true =>
      rw [applyMesh_helper m me h]
  | group n cs =>
    show (cs.map (applyMesh m)).foldr _ [] = cs.foldr _ []
    induction cs with
    | nil => rfl
    | cons c cs ih =>
      simp only [List.map_cons, List.foldr_cons, ih]
      cases h : helperName c.name with
      | false =>
        have hname : (applyMesh m c).name = c.name := by
          unfold applyMesh
          split <;> rfl
        simp [hname, h]
      | true =>
        rw [applyMesh_helper m c h]
        simp [h]

theorem helperMaterials_map (m : ViewMode) (scene : List Obj) :
    helperMaterials (scene.map (applyObj m)) = helperMaterials scene := by
  induction scene with
  | nil => rfl
  | cons o os ih =>
    simp only [List.map_cons, helperMaterials, List.foldr_cons]
    rw [objHelperMaterials_applyObj]
    have ih' := ih
    simp only [helperMaterials] at ih'
    rw [ih']

/-- C7: cycling the view mode three times returns the mode to its starting
value, and a cycle never changes the material of a node named "grid" or
"axes". -/
theorem cycle_view_mode_period_three_preserves_helpers (st : SceneState) :
    (toggleViewMode (toggleViewMode (toggleViewMode st))).mode = st.mode ∧
    helperMaterials (toggleViewMode st).scene = helperMaterials st.scene := by
  constructor
  · show nextMode (nextMode (nextMode st.mode)) = st.mode
    cases st.mode <;> rfl
  · exact helperMaterials_map _ _

/-- The scene as mounted: four lights, the grid helper (line segments at 60%
opacity), the axes helper (default line material), and the placeholder
model added by `createDefaultModel` (source lines 72-103 and 171). -/
def builtScene : List Obj :=
  createDefaultModel
    [.light "", .light "", .light "", .light "",
     .line "grid" (.lineMat 0.6 true), .line "axes" (.lineMat 1 false)]

/-- The session right after mount: solid mode, freshly built scene. -/
def initialSceneState : SceneState := ⟨.solid, builtScene⟩

/-- Materials of the meshes inside groups named "cadModel". -/
def cadMaterials (scene : List Obj) : List Material :=
  scene.foldr
    (fun o acc =>
      match o with
      | .group n cs => if n == "cadModel" then cs.map MeshObj.material ++ acc else acc
      | _ => acc) []

/-- C10: every cycle replaces the material of every non-grid/non-axes mesh
with a fresh material of the single fixed color 0x6366f1; consequently,
after cycling three times from solid back to solid, all eleven meshes of
the placeholder model carry one uniform physical material, which differs
from the original flange material (color 0x8b5cf6), the original bolt-hole
material (color 0x1e293b), and the original clearcoated main-body
material. -/
theorem toggle_materials_uniform_replacement :
    (∀ (m : ViewMode) (me : MeshObj), me.name ≠ "grid" → me.name ≠ "axes" →
        (applyMesh m me).material = modeMaterial m) ∧
    (∀ m : ViewMode, materialColor (modeMaterial m) = some 0x6366f1) ∧
    (toggleViewMode (toggleViewMode (toggleViewMode initialSceneState))).mode =
      ViewMode.solid ∧
    cadMaterials (toggleViewMode (toggleViewMode (toggleViewMode
        initialSceneState))).scene =
      List.replicate 11 (modeMaterial ViewMode.solid) ∧
    modeMaterial ViewMode.solid ≠ mainMaterial ∧
    modeMaterial ViewMode.solid ≠ flangeMaterial ∧
    modeMaterial ViewMode.solid ≠ holeMaterial := by
  refine ⟨?_, ?_, ?_, ?_, ?_, ?_, ?_⟩
  · intro m me h1 h2
    unfold applyMesh
    rw [if_pos ⟨h1, h2⟩]
  · intro m
    cases m <;> rfl
  · rfl
  · rfl
  · simp [modeMaterial, mainMaterial]
  · simp [modeMaterial, flangeMaterial]
  · simp [modeMaterial, holeMaterial]

/-- Witness for C10 on a concrete non-helper mesh. -/
theorem toggle_materials_uniform_replacement_witness :
    (applyMesh ViewMode.wireframe ⟨"", mainMaterial⟩).material =
      modeMaterial ViewMode.wireframe :=
  toggle_materials_uniform_replacement.1 ViewMode.wireframe ⟨"", mainMaterial⟩
    (by decide) (by decide)

/-!
Resize handling and the render loop (`updateSize`, source lines 48-60, and
`animate`, lines 174-180). -/

/-- Renderer surface size, pixel density and camera aspect, the state
written by `updateSize`. -/
structure RenderCtx where
  width : ℚ
  height : ℚ
  density : ℚ
  aspect : ℚ
deriving DecidableEq

/-- Renderer/camera state at mount, before the initial `updateSize` call:
default canvas backing size 300×150, camera constructed with aspect 1. -/
def mountCtx : RenderCtx := ⟨300, 150, 1, 1⟩

/-- `updateSize`: reads the container's bounding box and substitutes the
JavaScript falsy-fallbacks `rect.width || 800` and `rect.height || 600`
(for non-negative box dimensions, falsy means zero), caps the device pixel
ratio at 2, and sets the camera aspect to width / height.  The previous
context is overwritten unconditionally. -/
def updateSize (rectW rectH devicePixelDensity : ℚ) (_c : RenderCtx) : RenderCtx :=
  let width := if rectW = 0 then 800 else rectW
  let height := if rectH = 0 then 600 else rectH
  { width := width, height := height,
    density := min devicePixelDensity 2, aspect := width / height }

/-- One tick of `animate`: a render is attempted whenever the scene,
renderer and camera refs are set — the container size is never consulted. -/
def animateRenders (refsSet : Bool) : Bool := refsSet

/-- C8 counterexample: resizing with a 0×0 container is not skipped — the
context changes (the mount context's aspect 1 becomes 800/600 = 4/3) — and
a render is still attempted while the container is zero-area (the refs are
set from mount onward, and `animate` checks nothing else). -/
theorem zero_resize_not_skipped :
    updateSize 0 0 1 mountCtx ≠ mountCtx ∧
    (updateSize 0 0 1 mountCtx).width = 800 ∧
    (updateSize 0 0 1 mountCtx).height = 600 ∧
    (updateSize 0 0 1 mountCtx).aspect = 4 / 3 ∧
    animateRenders true = true := by
  refine ⟨?_, rfl, rfl, ?_, rfl⟩
  · intro h
    have := congrArg RenderCtx.width h
    simp [updateSize, mountCtx] at this
  · show (800 : ℚ) / 600 = 4 / 3
    norm_num

/-- C8 amended: a zero-area resize is tolerated not by skipping the update
but by substituting the fallback dimensions 800×600; the resulting height
is never zero (no divide-by-zero aspect), the update is applied, and
rendering continues regardless of container size. -/
theorem zero_resize_fallback (rectW rectH d : ℚ) (c : RenderCtx)
    (hW : 0 ≤ rectW) (hH : 0 ≤ rectH) :
    (updateSize rectW rectH d c).width ≠ 0 ∧
    (updateSize rectW rectH d c).height ≠ 0 ∧
    (updateSize rectW rectH d c).aspect =
      (updateSize rectW rectH d c).width / (updateSize rectW rectH d c).height ∧
    (rectW = 0 → (updateSize rectW rectH d c).width = 800) ∧
    (rectH = 0 → (updateSize rectW rectH d c).height = 600) ∧
    animateRenders true = true := by
  refine ⟨?_, ?_, rfl, ?_, ?_, rfl⟩
  · show (if rectW = 0 then (800 : ℚ) else rectW) ≠ 0
    split <;> [norm_num; assumption]
  · show (if rectH = 0 then (600 : ℚ) else rectH) ≠ 0
    split <;> [norm_num; assumption]
  · intro h
    simp [updateSize, h]
  · intro h
    simp [updateSize, h]

/-- Witness for C8 amended at a 0×0 container. -/
theorem zero_resize_fallback_witness :
    (updateSize 0 0 1 mountCtx).width ≠ 0 ∧ (updateSize 0 0 1 mountCtx).height ≠ 0 :=
  ⟨(zero_resize_fallback 0 0 1 mountCtx (by decide) (by decide)).1,
   (zero_resize_fallback 0 0 1 mountCtx (by decide) (by decide)).2.1⟩

/-!
Fullscreen toggling (`toggleFullscreen`, source lines 340-349).  The
platform's response to `requestFullscreen` is modelled by a boolean
`grants`; `document.exitFullscreen` always leaves fullscreen. -/

/-- The React `isFullscreen` flag alongside the platform's actual
fullscreen state. -/
structure FsState where
  isFullscreen : Bool
  actualFullscreen : Bool
deriving DecidableEq

/-- `toggleFullscreen`: requests or exits fullscreen depending on the flag,
then flips the flag unconditionally — the request's outcome is never
consulted and no fullscreen-change notification is observed. -/
def toggleFullscreen (grants : Bool) (s : FsState) : FsState :=
  if s.isFullscreen = false then
    { isFullscreen := true,
      actualFullscreen := if grants then true else s.actualFullscreen }
  else
    { isFullscreen := false, actualFullscreen := false }

/-- C9 counterexample: starting consistent and not fullscreen, a toggle
whose platform request is denied leaves the flag `true` while the viewport
is not fullscreen — the flag desynchronizes from the platform state,
contradicting the claim. -/
theorem fullscreen_denial_desync :
    (toggleFullscreen false ⟨false, false⟩).isFullscreen = true ∧
    (toggleFullscreen false ⟨false, false⟩).actualFullscreen = false ∧
    (toggleFullscreen false ⟨false, false⟩).isFullscreen ≠
      (toggleFullscreen false ⟨false, false⟩).actualFullscreen := by
  refine ⟨rfl, rfl, ?_⟩
  decide

/-- C9 amended: `toggleFullscreen` flips the session flag unconditionally;
when the platform denies the request, the actual fullscreen state is
unchanged, so toggling from a consistent non-fullscreen state makes the
flag `true` while the viewport stays windowed. -/
theorem fullscreen_flag_flip (grants : Bool) (s : FsState) :
    (toggleFullscreen grants s).isFullscreen = !s.isFullscreen ∧
    (s.isFullscreen = false → grants = false →
      (toggleFullscreen grants s).isFullscreen = true ∧
      (toggleFullscreen grants s).actualFullscreen = s.actualFullscreen) := by
  constructor
  · cases h : s.isFullscreen <;> simp [toggleFullscreen, h]
  · intro h1 h2
    simp [toggleFullscreen, h1, h2]

/-- Witness for C9 amended at a denied request from the windowed state. -/
theorem fullscreen_flag_flip_witness :
    (toggleFullscreen false ⟨false, false⟩).isFullscreen = true ∧
    (toggleFullscreen false ⟨false, false⟩).actualFullscreen = false :=
  (fullscreen_flag_flip false ⟨false, false⟩).2 rfl rfl

end Cad3dify
